import Mathlib

/-!
# Verification of the Auto-Print Monitor (`PrintScript/print.py`)

A shallow embedding of the folder-watching print-dispatch loop in
`src/PrintScript/print.py`, together with theorems settling the spec
claims about it.

Modelling conventions:
* Python strings are Lean `String`s; Python's substring test `a in b`
  is embedded as `pySubstr` over the character lists, and `.lower()` as
  `pyLower` (character-wise `Char.toLower`; this matches Python's
  `str.lower` on the ASCII range, which is all the configuration keys
  and examples use).
* External, fallible subsystem calls (the `lpstat` queries, the `lp`
  submission, `os.listdir`, `os.remove`) are inputs to each cycle: every
  call's outcome — a normal return or a raised Python exception — is
  supplied by a `CycleExt` record, and the model threads them through
  exactly the `try`/`except` structure of the source.
* Python exceptions are the inductive `PyExc`; the source catches
  `subprocess.CalledProcessError` and `IndexError` in
  `get_default_printer` (print.py line 205), catches every `Exception`
  around the per-file `lp` call and `os.remove` (lines 340-362), and
  catches only `KeyboardInterrupt` around the whole loop (line 376).
* Log calls are recorded as `LogEvent`s (debug/trace-level formatting
  detail is not modelled; the claim-relevant info/success/warn/error
  lines are).
-/

/-- A Python exception class, as far as the source's `except` clauses
distinguish them.  `subprocess.run` can raise `FileNotFoundError` when the
binary is missing; `os.remove`/`os.listdir` can raise `PermissionError`,
`FileNotFoundError`, `IsADirectoryError` (grouped under `otherError`). -/
inductive PyExc where
  | calledProcessError
  | indexError
  | fileNotFoundError
  | otherError
  deriving DecidableEq

/-- Embedding of Python's `str.lower()`: lower-case every character
(`Char.toLower`, which agrees with Python on the ASCII range). -/
def pyLower (s : String) : String :=
  ⟨s.data.map Char.toLower⟩

/-- Embedding of Python's `list.startswith`-style check on character lists:
`pyStartsWith needle hay` is true iff `needle` is an initial segment of
`hay`. Used only to build `pySubstr`. -/
def pyStartsWith : List Char → List Char → Bool
  | [], _ => true
  | _ :: _, [] => false
  | a :: as, b :: bs => a == b && pyStartsWith as bs

/-- Embedding of Python's substring containment `needle in hay` on
character lists: true iff `needle` occurs contiguously in `hay`
(the empty needle occurs in everything). -/
def pySubstr (hay needle : List Char) : Bool :=
  match hay with
  | [] => needle.isEmpty
  | _ :: t => pyStartsWith needle hay || pySubstr t needle

/-- `keyword.lower() in file.lower()` — the per-keyword test on
print.py line 332. -/
def keywordHit (keyword file : String) : Bool :=
  pySubstr (pyLower file).data (pyLower keyword).data

/-- `any(keyword.lower() in file.lower() for keyword in keywords)` —
print.py line 332. -/
def fileMatches (keywords : List String) (file : String) : Bool :=
  keywords.any (fun k => keywordHit k file)

/-- The directory scan of print.py lines 330-334: from the listing, the
files selected for dispatch are exactly those matching some keyword. -/
def scan (listing : List String) (keywords : List String) : List String :=
  listing.filter (fun f => fileMatches keywords f)

/-- The mathematical notion the spec appeals to: `k` is a
case-insensitive substring of `f`. -/
def CaseInsensitiveSubstr (k f : String) : Prop :=
  ∃ pre post, (pyLower f).data = pre ++ (pyLower k).data ++ post

/-- The configuration record read by `load_settings` (print.py lines
258-268), with the defaults applied by `settings.get`.  Python's
`explicit_printer_name` may be `None` or a string; the only use is the
truthiness test `if not explicit_printer_name` (line 297) followed by
uses of the (then necessarily non-empty) string, so `None` and `""`
are behaviourally identical and both are modelled by `""`. -/
structure Config where
  targetFolder : String
  keywords : List String
  useDefaultPrinter : Bool
  explicitPrinterName : String
  scanInterval : Nat
  deriving DecidableEq

/-- The claim-relevant log lines (info/success/warning/error/critical);
debug and trace formatting lines are not modelled. -/
inductive LogEvent where
  | cycleStart (n : Nat)
  | defaultDetected (name : String)
  | defaultPrinterWarn
  | defaultPrinterRetry
  | switchingDefault (name : String)
  | noExplicitPrinter
  | usingExplicit (name : String)
  | printerWaiting (name : String)
  | printerNotAvailable (name : String)
  | folderIssue (folder : String)
  | folderPassed (folder : String)
  | scanning (folder : String) (numKeywords : Nat)
  | fileFound (file : String)
  | successPrint (file : String)
  | printError (file : String) (stderr : String)
  | printException (file : String)
  | idleHeartbeat (n : Nat)
  | cycleComplete (n : Nat) (interval : Nat)
  deriving DecidableEq

/-- Outcomes of the external calls made while dispatching one file
(print.py lines 340-362): the `lp` submission either raises or returns a
process exit code (with its stderr text), and `os.remove` either raises
or succeeds. -/
structure FileExt where
  lpResult : Except PyExc Int
  lpStderr : String
  removeResult : Except PyExc Unit

/-- Outcomes of all external calls one cycle can make.
`defaultPrinterOutcome` combines `subprocess.run(['lpstat','-d'],
check=True)` with the two `split` parses (print.py lines 196-204): `.ok
s` means the parse produced printer name `s`; `.error e` means one of
these raised `e` (`check=True` turns a non-zero exit into
`CalledProcessError`; a missing `': '` separator into `IndexError`; a
missing `lpstat` binary into `FileNotFoundError`).
`statusOutcome name` is `subprocess.run(['lpstat','-p',name])` (line
227): a return code or a raised exception.  `folderOk` is
`os.path.exists(...) and os.access(..., os.R_OK)` (line 315), which
swallow their own OS errors and return booleans.  `listing` is
`os.listdir` (line 330), which can raise.  `fileExt` gives each file's
dispatch-call outcomes. -/
structure CycleExt where
  defaultPrinterOutcome : Except PyExc String
  statusOutcome : String → Except PyExc Int
  folderOk : Bool
  listing : Except PyExc (List String)
  fileExt : String → FileExt

/-- What one cycle of the `while True` loop did.  `resolved` is the
`printer_name` the cycle settled on (none if it never got one);
`scanned` records whether the `os.listdir` scan completed; `processed`
lists, in order, each dispatched file with whether it ended up deleted;
`newPrev` is `prev_printer_name` after the cycle; `sleep` the seconds
slept at the cycle's end; `fault` an exception that escaped the loop
body (the `while` is guarded only by `except KeyboardInterrupt`, so a
`fault` terminates the process). -/
structure CycleResult where
  resolved : Option String
  scanned : Bool
  processed : List (String × Bool)
  logs : List LogEvent
  newPrev : Option String
  sleep : Nat
  fault : Option PyExc
  deriving DecidableEq

/-- The files a cycle removed. -/
def deletedFiles (r : CycleResult) : List String :=
  (r.processed.filter (fun p => p.2)).map Prod.fst

/-- Dispatch of one matched file — print.py lines 336-362.  The
`logger.pinfo` "File found" line precedes the `try`; inside the `try`,
`lp` is run; on exit code 0 the success line is logged and only then
`os.remove` is called; any exception from `lp` or `os.remove` is caught
by the per-file `except Exception` and logged.  Returns the log lines
and whether the file was deleted. -/
def processFile (file : String) (fx : FileExt) : List LogEvent × Bool :=
  match fx.lpResult with
  | .error _ => ([.fileFound file, .printException file], false)
  | .ok rc =>
    if rc = 0 then
      match fx.removeResult with
      | .ok _ => ([.fileFound file, .successPrint file], true)
      | .error _ => ([.fileFound file, .successPrint file, .printException file], false)
    else
      ([.fileFound file, .printError file fx.lpStderr], false)

/-- The `for file in os.listdir(...)` loop of print.py lines 330-362:
each listed name is tested against the keywords and, if it matches,
dispatched via `processFile`; results are accumulated in listing
order. -/
def processFiles (kw : List String) (fx : String → FileExt) :
    List String → List LogEvent × List (String × Bool)
  | [] => ([], [])
  | f :: fs =>
    let rest := processFiles kw fx fs
    if fileMatches kw f then
      let r := processFile f (fx f)
      (r.1 ++ rest.1, (f, r.2) :: rest.2)
    else rest

/-- Result of the printer-selection block, print.py lines 281-307. -/
inductive SelResult where
  | fault (e : PyExc)
  | unavailable (logs : List LogEvent)
  | selected (name : String) (logs : List LogEvent)

/-- Printer selection — print.py lines 281-307.  In default mode,
`get_default_printer` (lines 193-209) catches exactly
`CalledProcessError` and `IndexError` (returning `None`, logged as a
warning); any other exception propagates.  A falsy (empty) detected name
hits the `if not current_printer` retry (line 284).  In explicit mode a
falsy configured name hits the retry at line 297.  On success,
`prev_printer_name` is compared and the switch is logged (lines
289-307). -/
def selectPrinter (cfg : Config) (ext : CycleExt) (prev : Option String) : SelResult :=
  if cfg.useDefaultPrinter then
    match ext.defaultPrinterOutcome with
    | .ok s =>
      if s.isEmpty then
        .unavailable [.defaultDetected s, .defaultPrinterRetry]
      else
        .selected s ([.defaultDetected s] ++
          if prev = some s then [] else [.switchingDefault s])
    | .error .calledProcessError => .unavailable [.defaultPrinterWarn, .defaultPrinterRetry]
    | .error .indexError => .unavailable [.defaultPrinterWarn, .defaultPrinterRetry]
    | .error e => .fault e
  else
    if cfg.explicitPrinterName.isEmpty then
      .unavailable [.noExplicitPrinter]
    else
      .selected cfg.explicitPrinterName
        (if prev = some cfg.explicitPrinterName then [] else
          [.usingExplicit cfg.explicitPrinterName])

/-- The name the printer-selection block of print.py lines 281-307 would
settle on, if any — a log-free view of `selectPrinter` used to state
theorems (`none` covers both the unavailable retries and the uncaught
faults). -/
def resolvedPrinterName (cfg : Config) (ext : CycleExt) : Option String :=
  if cfg.useDefaultPrinter then
    match ext.defaultPrinterOutcome with
    | .ok s => if s.isEmpty then none else some s
    | .error _ => none
  else
    if cfg.explicitPrinterName.isEmpty then none else some cfg.explicitPrinterName

/-- The rest of a cycle once a printer `name` was selected — print.py
lines 310-374: the availability check (`check_printer_availability`,
lines 211-240, whose `subprocess.run` is NOT inside any `try`), the
folder check (line 315), the scan-and-dispatch loop (lines 330-362), the
idle heartbeat (line 364) and the end-of-cycle sleep (line 374).
`logs1` carries the log lines emitted so far this cycle. -/
def afterSelect (cfg : Config) (ext : CycleExt) (count : Nat) (name : String)
    (logs1 : List LogEvent) : CycleResult :=
  match ext.statusOutcome name with
  | .error e =>
    { resolved := some name, scanned := false, processed := [], logs := logs1,
      newPrev := some name, sleep := 0, fault := some e }
  | .ok rc =>
    if rc = 0 then
      if ext.folderOk then
        match ext.listing with
        | .error e =>
          { resolved := some name, scanned := false, processed := [],
            logs := logs1 ++ [.printerWaiting name, .folderPassed cfg.targetFolder,
              .scanning cfg.targetFolder cfg.keywords.length],
            newPrev := some name, sleep := 0, fault := some e }
        | .ok names =>
          let pr := processFiles cfg.keywords ext.fileExt names
          { resolved := some name, scanned := true, processed := pr.2,
            logs := logs1 ++ [.printerWaiting name, .folderPassed cfg.targetFolder,
              .scanning cfg.targetFolder cfg.keywords.length] ++ pr.1 ++
              (if pr.2.isEmpty then [LogEvent.idleHeartbeat count] else []) ++
              [.cycleComplete count cfg.scanInterval],
            newPrev := some name, sleep := cfg.scanInterval, fault := none }
      else
        { resolved := some name, scanned := false, processed := [],
          logs := logs1 ++ [.printerWaiting name, .folderIssue cfg.targetFolder],
          newPrev := some name, sleep := 10, fault := none }
    else
      { resolved := some name, scanned := false, processed := [],
        logs := logs1 ++ [.printerNotAvailable name],
        newPrev := some name, sleep := 10, fault := none }

/-- One iteration of the `while True` loop — print.py lines 275-374.
`prev` is `prev_printer_name` entering the iteration and `count` the
already-incremented `cycle_count`. -/
def runCycle (cfg : Config) (ext : CycleExt) (prev : Option String) (count : Nat) :
    CycleResult :=
  let logs0 := [LogEvent.cycleStart count]
  match selectPrinter cfg ext prev with
  | .fault e =>
    { resolved := none, scanned := false, processed := [], logs := logs0,
      newPrev := prev, sleep := 0, fault := some e }
  | .unavailable ls =>
    { resolved := none, scanned := false, processed := [], logs := logs0 ++ ls,
      newPrev := prev, sleep := 10, fault := none }
  | .selected name ls => afterSelect cfg ext count name (logs0 ++ ls)

/-- The loop of print.py lines 273-375, run for at most `n` cycles:
`load_settings` is called once (line 252) and the extracted values
(lines 260-268) are fixed for the whole run; each iteration increments
`cycle_count` and threads `prev_printer_name`.  An escaped exception
stops the loop (only `KeyboardInterrupt` is caught at line 376). -/
def runLoop (cfg : Config) (exts : Nat → CycleExt) (prev : Option String)
    (count : Nat) : Nat → List CycleResult
  | 0 => []
  | Nat.succ n =>
    let r := runCycle cfg (exts count) prev (count + 1)
    match r.fault with
    | some _ => [r]
    | none => r :: runLoop cfg exts r.newPrev (count + 1) n

/-- The whole monitored run as `main` performs it (print.py lines
252-275): the configuration source is read once, at startup, and the
loop then runs on those values; `src i` is what `load_settings` would
return were it called at the start of cycle `i + 1`. -/
def mainLoop (src : Nat → Config) (exts : Nat → CycleExt) (n : Nat) :
    List CycleResult :=
  runLoop (src 0) exts none 0 n

/-- Modelled from the spec: "Reloaded fresh every cycle; immutable
within a cycle" — a variant of the loop that re-reads the configuration
source at the start of every cycle, for comparison with `mainLoop`
(the source code has no such re-read). -/
def runLoopReload (src : Nat → Config) (exts : Nat → CycleExt) (prev : Option String)
    (count : Nat) : Nat → List CycleResult
  | 0 => []
  | Nat.succ n =>
    let r := runCycle (src count) (exts count) prev (count + 1)
    match r.fault with
    | some _ => [r]
    | none => r :: runLoopReload src exts r.newPrev (count + 1) n

/-- Modelled from the spec: the per-cycle-reload variant of `mainLoop`. -/
def mainLoopReload (src : Nat → Config) (exts : Nat → CycleExt) (n : Nat) :
    List CycleResult :=
  runLoopReload src exts none 0 n

/-- How the run of `main` ends, seen from outside the loop: either an
external `KeyboardInterrupt` arrived, or an exception escaped the loop
body. -/
inductive RunEnd where
  | interrupted
  | faulted (e : PyExc)
  deriving DecidableEq

/-- The process exit, as the OS sees it. -/
inductive ExitStatus where
  | code (n : Nat)
  | aborted (e : PyExc)
  deriving DecidableEq

/-- Process termination of `main` — print.py lines 252-256 and 376-379.
If `load_settings()` returns `None`, `main` logs a critical line and
plainly `return`s, so the interpreter exits normally with status 0.
Otherwise the loop runs until `loopEnd`: a `KeyboardInterrupt` is caught
and `sys.exit(0)` is called; any other escaped exception is uncaught and
aborts the process (non-zero status). -/
def mainExit (settingsLoaded : Option Config) (loopEnd : RunEnd) : ExitStatus :=
  match settingsLoaded with
  | none => .code 0
  | some _ =>
    match loopEnd with
    | .interrupted => .code 0
    | .faulted e => .aborted e

/-- A directory entry as the filesystem holds it: a name plus whether
the entry is a subdirectory.  `os.listdir` (print.py line 330) returns
only the names, of every entry kind. -/
structure DirEntry where
  name : String
  isDir : Bool
  deriving DecidableEq

/-- `os.listdir`: the names of all entries, regular files and
subdirectories alike. -/
def listdirNames (es : List DirEntry) : List String :=
  es.map DirEntry.name

/-- The printer-unavailability conditions of a cycle: the default-printer
query failed in a caught way or produced a falsy name, or explicit mode
has a falsy configured name, or the availability check returned a
non-zero exit code for the printer the cycle settled on. -/
def unavailableCycle (cfg : Config) (ext : CycleExt) : Prop :=
  (cfg.useDefaultPrinter = true ∧
    (ext.defaultPrinterOutcome = .error .calledProcessError ∨
     ext.defaultPrinterOutcome = .error .indexError ∨
     ext.defaultPrinterOutcome = .ok "")) ∨
  (cfg.useDefaultPrinter = false ∧ cfg.explicitPrinterName = "") ∨
  (∃ name, resolvedPrinterName cfg ext = some name ∧
    ∃ rc, ext.statusOutcome name = .ok rc ∧ rc ≠ 0)

/-- The log lines that report an unavailable printer. -/
def isUnavailLog : LogEvent → Bool
  | .defaultPrinterWarn => true
  | .defaultPrinterRetry => true
  | .noExplicitPrinter => true
  | .printerNotAvailable _ => true
  | _ => false

/-- Example configuration: explicit-printer mode, keyword INVOICE. -/
def cfgExplicitP : Config :=
  { targetFolder := "/tmp/in", keywords := ["INVOICE"], useDefaultPrinter := false,
    explicitPrinterName := "HP1", scanInterval := 3 }

/-- Example configuration: default-printer mode, keyword invoice. -/
def cfgDefaultMode : Config :=
  { targetFolder := "/tmp/in", keywords := ["invoice"], useDefaultPrinter := true,
    explicitPrinterName := "", scanInterval := 3 }

/-- Example configuration: the empty string among the keywords. -/
def cfgEmptyKeyword : Config :=
  { targetFolder := "/tmp/in", keywords := [""], useDefaultPrinter := true,
    explicitPrinterName := "", scanInterval := 3 }

/-- Example external world: everything healthy; printing and deleting
succeed for every file; the folder holds `listing`. -/
def extReady (listing : List String) : CycleExt :=
  { defaultPrinterOutcome := Except.ok "HP1", statusOutcome := fun _ => Except.ok 0,
    folderOk := true, listing := Except.ok listing,
    fileExt := fun _ => { lpResult := Except.ok 0, lpStderr := "", removeResult := Except.ok () } }

/-- Example external world: the `lpstat -p` availability query itself
raises (e.g. the `lpstat` binary is missing, `FileNotFoundError`). -/
def extStatusRaises : CycleExt :=
  { defaultPrinterOutcome := Except.ok "HP1",
    statusOutcome := fun _ => Except.error PyExc.fileNotFoundError,
    folderOk := true, listing := Except.ok [],
    fileExt := fun _ => { lpResult := Except.ok 0, lpStderr := "", removeResult := Except.ok () } }

/-- Example external world: healthy until dispatch, where the `lp` call
raises for every file. -/
def extDispatchRaises : CycleExt :=
  { defaultPrinterOutcome := Except.ok "HP1", statusOutcome := fun _ => Except.ok 0,
    folderOk := true, listing := Except.ok ["INVOICE_001.pdf"],
    fileExt := fun _ =>
      { lpResult := Except.error PyExc.otherError, lpStderr := "", removeResult := Except.ok () } }

/-- Example external world: the printer reports not-ready (`lpstat -p`
exits 1). -/
def extNotReady : CycleExt :=
  { defaultPrinterOutcome := Except.ok "HP1", statusOutcome := fun _ => Except.ok 1,
    folderOk := true, listing := Except.ok ["INVOICE_001.pdf"],
    fileExt := fun _ => { lpResult := Except.ok 0, lpStderr := "", removeResult := Except.ok () } }

/-- Example external world: `lp` fails (exit 1) for `INVOICE_a.pdf` but
succeeds for every other file. -/
def extMixed : CycleExt :=
  { defaultPrinterOutcome := Except.ok "HP1", statusOutcome := fun _ => Except.ok 0,
    folderOk := true, listing := Except.ok ["INVOICE_a.pdf", "note.txt", "INVOICE_b.pdf"],
    fileExt := fun f =>
      if f = "INVOICE_a.pdf" then
        { lpResult := Except.ok 1, lpStderr := "printer jam", removeResult := Except.ok () }
      else
        { lpResult := Except.ok 0, lpStderr := "", removeResult := Except.ok () } }

/-- A configuration source that changes after startup: at the first read
it has keyword `invoice`, afterwards an empty keyword list. -/
def srcChanging : Nat → Config :=
  fun i => if i = 0 then cfgDefaultMode else { cfgDefaultMode with keywords := [] }

/-- The per-cycle external world for the configuration-reload scenario:
every cycle is healthy and the folder always holds `INVOICE_001.pdf`. -/
def extsReady : Nat → CycleExt :=
  fun _ => extReady ["INVOICE_001.pdf"]

theorem pyStartsWith_iff (needle hay : List Char) :
    pyStartsWith needle hay = true ↔ ∃ t, hay = needle ++ t := by
  induction needle generalizing hay with
  | nil => simp [pyStartsWith]
  | cons a as ih =>
    cases hay with
    | nil => simp [pyStartsWith]
    | cons b bs =>
      simp only [pyStartsWith, Bool.and_eq_true, beq_iff_eq, ih, List.cons_append,
        List.cons.injEq]
      constructor
      · rintro ⟨rfl, t, rfl⟩
        exact ⟨t, rfl, rfl⟩
      · rintro ⟨t, rfl, rfl⟩
        exact ⟨rfl, t, rfl⟩

theorem pySubstr_iff (hay needle : List Char) :
    pySubstr hay needle = true ↔ ∃ pre post, hay = pre ++ needle ++ post := by
  induction hay with
  | nil =>
    simp only [pySubstr, List.isEmpty_iff]
    constructor
    · rintro rfl
      exact ⟨[], [], rfl⟩
    · rintro ⟨pre, post, h⟩
      rcases List.append_eq_nil.mp (List.append_eq_nil.mp h.symm).1 with ⟨-, h2⟩
      exact h2
  | cons c t ih =>
    simp only [pySubstr, Bool.or_eq_true, pyStartsWith_iff, ih]
    constructor
    · rintro (⟨post, h⟩ | ⟨pre, post, rfl⟩)
      · exact ⟨[], post, by simpa using h⟩
      · exact ⟨c :: pre, post, rfl⟩
    · rintro ⟨pre, post, h⟩
      cases pre with
      | nil =>
        exact Or.inl ⟨post, by simpa using h⟩
      | cons p ps =>
        simp only [List.cons_append, List.cons.injEq] at h
        exact Or.inr ⟨ps, post, h.2⟩

theorem keywordHit_iff (k f : String) :
    keywordHit k f = true ↔ CaseInsensitiveSubstr k f := by
  unfold keywordHit CaseInsensitiveSubstr
  exact pySubstr_iff _ _

/-- C1: the scan selects `F` iff `F` is listed and some keyword is a
case-insensitive substring of `F`; with no keywords nothing is selected. -/
theorem c1_scan_characterisation (listing K : List String) (F : String) :
    (F ∈ scan listing K ↔ F ∈ listing ∧ ∃ k ∈ K, CaseInsensitiveSubstr k F) ∧
    scan listing [] = [] := by
  constructor
  · simp only [scan, List.mem_filter, fileMatches, List.any_eq_true, keywordHit_iff]
  · simp [scan, fileMatches]

theorem pySubstr_nil (hay : List Char) : pySubstr hay [] = true := by
  cases hay <;> simp [pySubstr, pyStartsWith]

theorem keywordHit_empty (F : String) : keywordHit "" F = true := by
  unfold keywordHit
  exact pySubstr_nil _

theorem processFiles_snd_map_fst (kw : List String) (fx : String → FileExt)
    (names : List String) :
    ((processFiles kw fx names).2).map Prod.fst = scan names kw := by
  induction names with
  | nil => rfl
  | cons f fs ih =>
    simp only [processFiles, scan] at *
    by_cases h : fileMatches kw f = true
    · simp [h, List.filter_cons, ih]
    · simp [h, List.filter_cons, ih]

theorem selectPrinter_of_resolved (cfg : Config) (ext : CycleExt) (prev : Option String)
    (name : String) (h : resolvedPrinterName cfg ext = some name) :
    ∃ ls, selectPrinter cfg ext prev = SelResult.selected name ls := by
  unfold resolvedPrinterName at h
  unfold selectPrinter
  cases hb : cfg.useDefaultPrinter with
  | false =>
    rw [hb] at h
    simp only [Bool.false_eq_true, if_false] at h ⊢
    by_cases he : cfg.explicitPrinterName.isEmpty = true
    · rw [if_pos he] at h
      exact absurd h (by simp)
    · rw [if_neg he] at h
      rw [if_neg he]
      injection h with h
      subst h
      exact ⟨_, rfl⟩
  | true =>
    rw [hb] at h
    simp only [if_true] at h ⊢
    cases ho : ext.defaultPrinterOutcome with
    | ok s =>
      rw [ho] at h
      dsimp only at h ⊢
      by_cases he : s.isEmpty = true
      · rw [if_pos he] at h
        exact absurd h (by simp)
      · rw [if_neg he] at h
        rw [if_neg he]
        injection h with h
        subst h
        exact ⟨_, rfl⟩
    | error e =>
      rw [ho] at h
      cases e <;> simp at h

theorem runCycle_selected (cfg : Config) (ext : CycleExt) (prev : Option String)
    (c : Nat) (name : String) (ls : List LogEvent)
    (h : selectPrinter cfg ext prev = SelResult.selected name ls) :
    runCycle cfg ext prev c = afterSelect cfg ext c name ([LogEvent.cycleStart c] ++ ls) := by
  unfold runCycle
  rw [h]

theorem runCycle_unavailable (cfg : Config) (ext : CycleExt) (prev : Option String)
    (c : Nat) (ls : List LogEvent)
    (h : selectPrinter cfg ext prev = SelResult.unavailable ls) :
    runCycle cfg ext prev c =
      { resolved := none, scanned := false, processed := [],
        logs := [LogEvent.cycleStart c] ++ ls, newPrev := prev, sleep := 10,
        fault := none } := by
  unfold runCycle
  rw [h]

theorem afterSelect_reach (cfg : Config) (ext : CycleExt) (c : Nat) (name : String)
    (L : List LogEvent) (names : List String)
    (hs : ext.statusOutcome name = Except.ok 0)
    (hf : ext.folderOk = true)
    (hl : ext.listing = Except.ok names) :
    (afterSelect cfg ext c name L).scanned = true ∧
    (afterSelect cfg ext c name L).processed = (processFiles cfg.keywords ext.fileExt names).2 ∧
    (afterSelect cfg ext c name L).fault = none ∧
    (afterSelect cfg ext c name L).resolved = some name ∧
    (afterSelect cfg ext c name L).sleep = cfg.scanInterval := by
  unfold afterSelect
  rw [hs, hf, hl]
  simp

theorem afterSelect_notReady (cfg : Config) (ext : CycleExt) (c : Nat) (name : String)
    (L : List LogEvent) (rc : Int)
    (hs : ext.statusOutcome name = Except.ok rc) (hrc : rc ≠ 0) :
    (afterSelect cfg ext c name L).scanned = false ∧
    (afterSelect cfg ext c name L).processed = [] ∧
    (afterSelect cfg ext c name L).sleep = 10 ∧
    (afterSelect cfg ext c name L).fault = none ∧
    LogEvent.printerNotAvailable name ∈ (afterSelect cfg ext c name L).logs := by
  unfold afterSelect
  rw [hs]
  simp [hrc]

theorem afterSelect_fault_none (cfg : Config) (ext : CycleExt) (c : Nat) (name : String)
    (L : List LogEvent)
    (hs : ∃ rc, ext.statusOutcome name = Except.ok rc)
    (hl : ∃ names, ext.listing = Except.ok names) :
    (afterSelect cfg ext c name L).fault = none := by
  obtain ⟨rc, hrc⟩ := hs
  obtain ⟨names, hln⟩ := hl
  unfold afterSelect
  rw [hrc, hln]
  by_cases hrc0 : rc = 0 <;> by_cases hfo : ext.folderOk = true <;> simp [hrc0, hfo]

theorem selectPrinter_shape (cfg : Config) (ext : CycleExt) (prev prev' : Option String) :
    (∃ e, selectPrinter cfg ext prev = SelResult.fault e ∧
      selectPrinter cfg ext prev' = SelResult.fault e) ∨
    (∃ ls ls', selectPrinter cfg ext prev = SelResult.unavailable ls ∧
      selectPrinter cfg ext prev' = SelResult.unavailable ls') ∨
    (∃ name ls ls', selectPrinter cfg ext prev = SelResult.selected name ls ∧
      selectPrinter cfg ext prev' = SelResult.selected name ls') := by
  unfold selectPrinter
  cases hb : cfg.useDefaultPrinter with
  | false =>
    simp only [Bool.false_eq_true, if_false]
    by_cases he : cfg.explicitPrinterName.isEmpty = true
    · rw [if_pos he, if_pos he]
      exact Or.inr (Or.inl ⟨_, _, rfl, rfl⟩)
    · rw [if_neg he, if_neg he]
      exact Or.inr (Or.inr ⟨_, _, _, rfl, rfl⟩)
  | true =>
    simp only [if_true]
    cases ho : ext.defaultPrinterOutcome with
    | ok s =>
      dsimp only
      by_cases he : s.isEmpty = true
      · rw [if_pos he, if_pos he]
        exact Or.inr (Or.inl ⟨_, _, rfl, rfl⟩)
      · rw [if_neg he, if_neg he]
        exact Or.inr (Or.inr ⟨_, _, _, rfl, rfl⟩)
    | error e =>
      cases e
      · exact Or.inr (Or.inl ⟨_, _, rfl, rfl⟩)
      · exact Or.inr (Or.inl ⟨_, _, rfl, rfl⟩)
      · exact Or.inl ⟨_, rfl, rfl⟩
      · exact Or.inl ⟨_, rfl, rfl⟩

theorem afterSelect_obs_irrel (cfg : Config) (ext : CycleExt) (c c' : Nat)
    (name : String) (L L' : List LogEvent) :
    (afterSelect cfg ext c name L).resolved = (afterSelect cfg ext c' name L').resolved ∧
    (afterSelect cfg ext c name L).scanned = (afterSelect cfg ext c' name L').scanned ∧
    (afterSelect cfg ext c name L).processed = (afterSelect cfg ext c' name L').processed ∧
    (afterSelect cfg ext c name L).newPrev = (afterSelect cfg ext c' name L').newPrev ∧
    (afterSelect cfg ext c name L).sleep = (afterSelect cfg ext c' name L').sleep ∧
    (afterSelect cfg ext c name L).fault = (afterSelect cfg ext c' name L').fault := by
  unfold afterSelect
  cases hst : ext.statusOutcome name with
  | error e => simp
  | ok rc =>
    by_cases hrc : rc = 0
    · by_cases hfo : ext.folderOk = true
      · cases hl : ext.listing with
        | error e => simp [hrc, hfo]
        | ok names => simp [hrc, hfo]
      · simp [hrc, hfo]
    · simp [hrc]

theorem selectPrinter_no_fault (cfg : Config) (ext : CycleExt) (prev : Option String)
    (hd : cfg.useDefaultPrinter = true →
      (∃ s, ext.defaultPrinterOutcome = Except.ok s) ∨
      ext.defaultPrinterOutcome = Except.error PyExc.calledProcessError ∨
      ext.defaultPrinterOutcome = Except.error PyExc.indexError) :
    (∃ ls, selectPrinter cfg ext prev = SelResult.unavailable ls) ∨
    (∃ name ls, selectPrinter cfg ext prev = SelResult.selected name ls) := by
  unfold selectPrinter
  cases hb : cfg.useDefaultPrinter with
  | false =>
    simp only [Bool.false_eq_true, if_false]
    by_cases he : cfg.explicitPrinterName.isEmpty = true
    · rw [if_pos he]
      exact Or.inl ⟨_, rfl⟩
    · rw [if_neg he]
      exact Or.inr ⟨_, _, rfl⟩
  | true =>
    simp only [if_true]
    rcases hd hb with ⟨s, hso⟩ | hso | hso <;> rw [hso]
    · dsimp only
      by_cases he : s.isEmpty = true
      · rw [if_pos he]
        exact Or.inl ⟨_, rfl⟩
      · rw [if_neg he]
        exact Or.inr ⟨_, _, rfl⟩
    · exact Or.inl ⟨_, rfl⟩
    · exact Or.inl ⟨_, rfl⟩

theorem resolvedPrinterName_set_listing (cfg : Config) (ext : CycleExt)
    (L : Except PyExc (List String)) :
    resolvedPrinterName cfg { ext with listing := L } = resolvedPrinterName cfg ext := rfl

/-- C2: a dispatched file is deleted exactly when the print subsystem
reported exit status 0 and the removal call succeeded, and the Success
line is logged exactly when the print reported exit status 0 — in
particular it is logged even when the deletion then fails, and a
reported print failure always leaves the file in place; nothing is
rolled back or retried. -/
theorem c2_dispatch_success_deletes (file : String) (fx : FileExt) :
    ((processFile file fx).2 = true ↔
      fx.lpResult = Except.ok 0 ∧ fx.removeResult = Except.ok ()) ∧
    (LogEvent.successPrint file ∈ (processFile file fx).1 ↔ fx.lpResult = Except.ok 0) := by
  unfold processFile
  cases hlp : fx.lpResult with
  | error e => simp
  | ok rc =>
    dsimp only
    by_cases hrc : rc = 0
    · subst hrc
      rw [if_pos rfl]
      cases hrm : fx.removeResult with
      | ok u =>
        cases u
        simp
      | error e => simp
    · rw [if_neg hrc]
      simp [hrc]

/-- C3 counterexample: when the `lpstat -p` availability query raises
(`check_printer_availability`, print.py line 227, runs `subprocess.run`
outside any `try`), the exception escapes the loop body, whose only
handler is `except KeyboardInterrupt` (line 376) — the cycle faults and
the process dies, contradicting the claim that every fault raised while
invoking an external subsystem is caught and converted to a recoverable
Failure. -/
theorem c3_counterexample :
    (runCycle cfgExplicitP extStatusRaises none 1).fault = some PyExc.fileNotFoundError := by
  rfl

/-- C3 amended: faults raised while submitting a file to print or
deleting it afterwards are always caught at the per-file dispatch
boundary (any `fileExt` outcome, including raised exceptions, leaves the
cycle fault-free), and a `CalledProcessError` or `IndexError` from the
default-printer query is likewise handled; but only under the further
assumptions that the printer-status query and the directory listing
return normally (and the default-printer query raises nothing else) does
the cycle never fault. -/
theorem c3_amended_fault_boundary (cfg : Config) (ext : CycleExt) (prev : Option String)
    (c : Nat)
    (hd : cfg.useDefaultPrinter = true →
      (∃ s, ext.defaultPrinterOutcome = Except.ok s) ∨
      ext.defaultPrinterOutcome = Except.error PyExc.calledProcessError ∨
      ext.defaultPrinterOutcome = Except.error PyExc.indexError)
    (hs : ∀ name, ∃ rc, ext.statusOutcome name = Except.ok rc)
    (hl : ∃ names, ext.listing = Except.ok names) :
    (runCycle cfg ext prev c).fault = none := by
  rcases selectPrinter_no_fault cfg ext prev hd with ⟨ls, hsel⟩ | ⟨name, ls, hsel⟩
  · rw [runCycle_unavailable cfg ext prev c ls hsel]
  · rw [runCycle_selected cfg ext prev c name ls hsel]
    exact afterSelect_fault_none cfg ext c name _ (hs name) hl

/-- C3 amended, witness: with a healthy printer but an `lp` call that
raises for every file, the cycle still ends without a fault. -/
theorem c3_amended_fault_boundary_witness :
    (∃ names, extDispatchRaises.listing = Except.ok names) ∧
    (runCycle cfgDefaultMode extDispatchRaises none 1).fault = none := by
  refine ⟨⟨["INVOICE_001.pdf"], rfl⟩, ?_⟩
  exact c3_amended_fault_boundary cfgDefaultMode extDispatchRaises none 1
    (fun _ => Or.inl ⟨"HP1", rfl⟩) (fun _ => ⟨0, rfl⟩) ⟨["INVOICE_001.pdf"], rfl⟩

/-- C4 counterexample: when the settings fail to load at startup, `main`
logs a critical line and plainly returns (print.py lines 253-256), so the
process exits with status 0 — not with a non-zero status or an abort as
the claim states. -/
theorem c4_counterexample :
    mainExit none RunEnd.interrupted = ExitStatus.code 0 := rfl

/-- C4 amended: the process exits with status 0 on clean shutdown
(external interrupt) and also on startup configuration failure (which
still terminates the process immediately, with no retry, via a plain
return); a non-zero abort happens exactly when configuration loaded and
an unhandled fault escaped the loop. -/
theorem c4_amended_exit_codes (s : Option Config) (e : RunEnd) :
    (mainExit s e = ExitStatus.code 0 ↔ s = none ∨ e = RunEnd.interrupted) ∧
    (∀ exc, mainExit s e = ExitStatus.aborted exc ↔ s ≠ none ∧ e = RunEnd.faulted exc) := by
  cases s <;> cases e <;> simp [mainExit]

/-- C5 counterexample: the configuration source drops the `invoice`
keyword after startup; a per-cycle re-read (as the claim describes)
would dispatch nothing in cycle 2, but the code, which loads settings
once at startup (print.py line 252), still dispatches the file — the two
runs differ, so the configuration used in a cycle is not re-read fresh
at the start of that cycle. -/
theorem c5_counterexample :
    (mainLoop srcChanging extsReady 2).map (fun r => r.processed) ≠
      (mainLoopReload srcChanging extsReady 2).map (fun r => r.processed) := by
  decide

/-- C5 amended: the configuration is read once, at startup, and those
values are used unchanged in every cycle (immutable within and across
cycles); the behaviour of the whole run depends only on the
configuration source's startup contents. -/
theorem c5_amended_config_fixed (src src' : Nat → Config) (exts : Nat → CycleExt)
    (n : Nat) (h : src 0 = src' 0) :
    mainLoop src exts n = mainLoop src' exts n := by
  unfold mainLoop
  rw [h]

/-- C5 amended, witness: the run under the changing source equals the
run under the source frozen at its startup contents. -/
theorem c5_amended_config_fixed_witness :
    srcChanging 0 = (fun _ => cfgDefaultMode) 0 ∧
    mainLoop srcChanging extsReady 2 = mainLoop (fun _ => cfgDefaultMode) extsReady 2 :=
  ⟨rfl, c5_amended_config_fixed srcChanging (fun _ => cfgDefaultMode) extsReady 2 rfl⟩

/-- C6: in a cycle whose printer resolves as unavailable (default query
fails in a caught way or yields a falsy name, explicit mode with an
empty name, or the status check reports not ready), the loop logs an
unavailability line, sleeps the fixed 10-second backoff and skips
scanning and dispatching entirely; and with the same configuration, a
later cycle whose externals report the printer ready scans again — no
settings change needed. -/
theorem c6_unavailable_backoff (cfg : Config) (ext ext2 : CycleExt)
    (prev prev2 : Option String) (c c2 : Nat) (name2 : String) (names : List String)
    (h : unavailableCycle cfg ext)
    (h2n : resolvedPrinterName cfg ext2 = some name2)
    (h2s : ext2.statusOutcome name2 = Except.ok 0)
    (h2f : ext2.folderOk = true)
    (h2l : ext2.listing = Except.ok names) :
    (runCycle cfg ext prev c).scanned = false ∧
    (runCycle cfg ext prev c).processed = [] ∧
    (runCycle cfg ext prev c).sleep = 10 ∧
    (∃ ev ∈ (runCycle cfg ext prev c).logs, isUnavailLog ev = true) ∧
    (runCycle cfg ext2 prev2 c2).scanned = true := by
  have h2 : (runCycle cfg ext2 prev2 c2).scanned = true := by
    obtain ⟨ls, hsel⟩ := selectPrinter_of_resolved cfg ext2 prev2 name2 h2n
    rw [runCycle_selected cfg ext2 prev2 c2 name2 ls hsel]
    exact (afterSelect_reach cfg ext2 c2 name2 _ names h2s h2f h2l).1
  rcases h with ⟨hb, hout⟩ | ⟨hb, hexp⟩ | ⟨name, hres, rc, hst, hrc⟩
  · have hsel : ∃ ls, selectPrinter cfg ext prev = SelResult.unavailable ls ∧
        LogEvent.defaultPrinterRetry ∈ ls := by
      unfold selectPrinter
      rw [hb]
      simp only [if_true]
      rcases hout with hout | hout | hout <;> rw [hout]
      · exact ⟨_, rfl, by simp⟩
      · exact ⟨_, rfl, by simp⟩
      · dsimp only
        rw [if_pos (show String.isEmpty "" = true from rfl)]
        exact ⟨_, rfl, by simp⟩
    obtain ⟨ls, hsel, hmem⟩ := hsel
    rw [runCycle_unavailable cfg ext prev c ls hsel]
    exact ⟨rfl, rfl, rfl, ⟨LogEvent.defaultPrinterRetry, by simp [hmem], rfl⟩, h2⟩
  · have hsel : selectPrinter cfg ext prev = SelResult.unavailable [LogEvent.noExplicitPrinter] := by
      unfold selectPrinter
      rw [hb]
      simp only [Bool.false_eq_true, if_false]
      rw [if_pos (by rw [hexp]; rfl)]
    rw [runCycle_unavailable cfg ext prev c _ hsel]
    exact ⟨rfl, rfl, rfl, ⟨LogEvent.noExplicitPrinter, by simp, rfl⟩, h2⟩
  · obtain ⟨ls, hsel⟩ := selectPrinter_of_resolved cfg ext prev name hres
    rw [runCycle_selected cfg ext prev c name ls hsel]
    obtain ⟨hsc, hpr, hsl, hfa, hmem⟩ := afterSelect_notReady cfg ext c name _ rc hst hrc
    exact ⟨hsc, hpr, hsl, ⟨LogEvent.printerNotAvailable name, hmem, rfl⟩, h2⟩

/-- C6 witness: explicit printer HP1 reported not ready (status exit 1)
— no scan, 10-second backoff; next cycle the printer is ready and the
scan happens, under the same configuration. -/
theorem c6_unavailable_backoff_witness :
    unavailableCycle cfgExplicitP extNotReady ∧
    (runCycle cfgExplicitP extNotReady none 1).scanned = false ∧
    (runCycle cfgExplicitP extNotReady none 1).processed = [] ∧
    (runCycle cfgExplicitP extNotReady none 1).sleep = 10 ∧
    (∃ ev ∈ (runCycle cfgExplicitP extNotReady none 1).logs, isUnavailLog ev = true) ∧
    (runCycle cfgExplicitP (extReady ["INVOICE_001.pdf"]) none 2).scanned = true := by
  have hyp : unavailableCycle cfgExplicitP extNotReady :=
    Or.inr (Or.inr ⟨"HP1", rfl, 1, rfl, by decide⟩)
  have h := c6_unavailable_backoff cfgExplicitP extNotReady (extReady ["INVOICE_001.pdf"])
    none none 1 2 "HP1" ["INVOICE_001.pdf"] hyp rfl rfl rfl rfl
  exact ⟨hyp, h⟩

/-- C7: within a cycle that reaches the scan, the dispatched files are
exactly the keyword-matching entries of the directory listing, in
listing order, whatever each file's dispatch outcome is — so one file's
failure (any `fileExt` value) never halts the processing of the
remaining candidates. -/
theorem c7_listing_order_dispatch (cfg : Config) (ext : CycleExt) (prev : Option String)
    (c : Nat) (name : String) (names : List String)
    (hn : resolvedPrinterName cfg ext = some name)
    (hs : ext.statusOutcome name = Except.ok 0)
    (hf : ext.folderOk = true)
    (hl : ext.listing = Except.ok names) :
    (runCycle cfg ext prev c).processed.map Prod.fst = scan names cfg.keywords := by
  obtain ⟨ls, hsel⟩ := selectPrinter_of_resolved cfg ext prev name hn
  rw [runCycle_selected cfg ext prev c name ls hsel,
    (afterSelect_reach cfg ext c name _ names hs hf hl).2.1]
  exact processFiles_snd_map_fst cfg.keywords ext.fileExt names

/-- C7 witness: `lp` fails on `INVOICE_a.pdf` yet `INVOICE_b.pdf`, later
in the listing, is still dispatched (and deleted); the non-matching
`note.txt` is skipped. -/
theorem c7_listing_order_dispatch_witness :
    extMixed.folderOk = true ∧
    (runCycle cfgDefaultMode extMixed none 1).processed.map Prod.fst =
      scan ["INVOICE_a.pdf", "note.txt", "INVOICE_b.pdf"] cfgDefaultMode.keywords ∧
    (runCycle cfgDefaultMode extMixed none 1).processed =
      [("INVOICE_a.pdf", false), ("INVOICE_b.pdf", true)] := by
  refine ⟨rfl, ?_, ?_⟩
  · exact c7_listing_order_dispatch cfgDefaultMode extMixed none 1 "HP1"
      ["INVOICE_a.pdf", "note.txt", "INVOICE_b.pdf"] rfl rfl rfl rfl
  · decide

/-- C8: the diagnostic-only state is noninterfering — two cycles that
agree on configuration and every external-subsystem outcome but differ
in the previous-cycle printer name and/or the cycle counter resolve the
same printer, scan the same files, make the same dispatch decisions and
delete the same files; those values feed only the log output. -/
theorem c8_diagnostic_state_noninterference (cfg : Config) (ext : CycleExt)
    (prev prev' : Option String) (c c' : Nat) :
    (runCycle cfg ext prev c).resolved = (runCycle cfg ext prev' c').resolved ∧
    (runCycle cfg ext prev c).scanned = (runCycle cfg ext prev' c').scanned ∧
    (runCycle cfg ext prev c).processed = (runCycle cfg ext prev' c').processed ∧
    deletedFiles (runCycle cfg ext prev c) = deletedFiles (runCycle cfg ext prev' c') := by
  rcases selectPrinter_shape cfg ext prev prev' with
    ⟨e, h1, h2⟩ | ⟨ls, ls', h1, h2⟩ | ⟨name, ls, ls', h1, h2⟩
  · unfold runCycle
    rw [h1, h2]
    exact ⟨rfl, rfl, rfl, rfl⟩
  · unfold runCycle
    rw [h1, h2]
    exact ⟨rfl, rfl, rfl, rfl⟩
  · rw [runCycle_selected cfg ext prev c name ls h1,
      runCycle_selected cfg ext prev' c' name ls' h2]
    obtain ⟨e1, e2, e3, e4, e5, e6⟩ := afterSelect_obs_irrel cfg ext c c' name
      ([LogEvent.cycleStart c] ++ ls) ([LogEvent.cycleStart c'] ++ ls')
    refine ⟨e1, e2, e3, ?_⟩
    unfold deletedFiles
    rw [e3]

/-- C9: with the empty string among the keywords, every filename
matches (the empty string is a substring of everything), so a cycle that
reaches the scan dispatches every listed entry — unlike the empty
keyword list, which matches nothing. -/
theorem c9_empty_keyword_matches_everything (cfg : Config) (ext : CycleExt)
    (prev : Option String) (c : Nat) (name : String) (names : List String)
    (hk : "" ∈ cfg.keywords)
    (hn : resolvedPrinterName cfg ext = some name)
    (hs : ext.statusOutcome name = Except.ok 0)
    (hf : ext.folderOk = true)
    (hl : ext.listing = Except.ok names) :
    (∀ F : String, fileMatches cfg.keywords F = true) ∧
    (runCycle cfg ext prev c).processed.map Prod.fst = names := by
  have hall : ∀ F : String, fileMatches cfg.keywords F = true := by
    intro F
    unfold fileMatches
    exact List.any_eq_true.mpr ⟨"", hk, keywordHit_empty F⟩
  refine ⟨hall, ?_⟩
  obtain ⟨ls, hsel⟩ := selectPrinter_of_resolved cfg ext prev name hn
  rw [runCycle_selected cfg ext prev c name ls hsel,
    (afterSelect_reach cfg ext c name _ names hs hf hl).2.1,
    processFiles_snd_map_fst cfg.keywords ext.fileExt names]
  unfold scan
  exact List.filter_eq_self.mpr (fun a _ => hall a)

/-- C9 witness: with keywords `[""]`, both listed entries are dispatched. -/
theorem c9_empty_keyword_witness :
    "" ∈ cfgEmptyKeyword.keywords ∧
    (∀ F : String, fileMatches cfgEmptyKeyword.keywords F = true) ∧
    (runCycle cfgEmptyKeyword (extReady ["anything.bin", "subdir"]) none 1).processed.map
      Prod.fst = ["anything.bin", "subdir"] := by
  have hk : "" ∈ cfgEmptyKeyword.keywords := by
    unfold cfgEmptyKeyword
    simp
  have h := c9_empty_keyword_matches_everything cfgEmptyKeyword
    (extReady ["anything.bin", "subdir"]) none 1 "HP1" ["anything.bin", "subdir"]
    hk rfl rfl rfl rfl
  exact ⟨hk, h⟩

/-- C10: the scan is blind to the kind of a directory entry — two
directories whose entries have the same names in the same order,
whatever each entry's file/subdirectory kind, give identical cycles; and
every entry whose name matches a keyword, subdirectories included, is
dispatched (submitted to `lp` and, on reported success, removed via
`os.remove`). -/
theorem c10_entry_kind_blind (cfg : Config) (ext : CycleExt) (es es' : List DirEntry)
    (prev : Option String) (c : Nat) (name : String)
    (hnames : listdirNames es = listdirNames es')
    (hn : resolvedPrinterName cfg ext = some name)
    (hs : ext.statusOutcome name = Except.ok 0)
    (hf : ext.folderOk = true) :
    runCycle cfg { ext with listing := Except.ok (listdirNames es) } prev c =
      runCycle cfg { ext with listing := Except.ok (listdirNames es') } prev c ∧
    ∀ e ∈ es, fileMatches cfg.keywords e.name = true →
      e.name ∈ (runCycle cfg { ext with listing := Except.ok (listdirNames es) }
        prev c).processed.map Prod.fst := by
  constructor
  · rw [hnames]
  · intro e he hm
    have hn2 : resolvedPrinterName cfg { ext with listing := Except.ok (listdirNames es) } =
        some name := (resolvedPrinterName_set_listing cfg ext _).trans hn
    obtain ⟨ls, hsel⟩ := selectPrinter_of_resolved cfg
      { ext with listing := Except.ok (listdirNames es) } prev name hn2
    rw [runCycle_selected cfg { ext with listing := Except.ok (listdirNames es) } prev c
        name ls hsel,
      (afterSelect_reach cfg { ext with listing := Except.ok (listdirNames es) } c name _
        (listdirNames es) hs hf rfl).2.1,
      processFiles_snd_map_fst cfg.keywords _ (listdirNames es)]
    unfold scan listdirNames
    exact List.mem_filter.mpr ⟨List.mem_map.mpr ⟨e, he, rfl⟩, hm⟩

/-- C10 witness: a subdirectory named `INVOICE_001.pdf` is treated
exactly like a regular file of the same name. -/
theorem c10_entry_kind_blind_witness :
    listdirNames [DirEntry.mk "INVOICE_001.pdf" true] =
      listdirNames [DirEntry.mk "INVOICE_001.pdf" false] ∧
    runCycle cfgDefaultMode
        { extReady [] with listing := Except.ok (listdirNames [DirEntry.mk "INVOICE_001.pdf" true]) }
        none 1 =
      runCycle cfgDefaultMode
        { extReady [] with listing := Except.ok (listdirNames [DirEntry.mk "INVOICE_001.pdf" false]) }
        none 1 := by
  have h := c10_entry_kind_blind cfgDefaultMode (extReady [])
    [DirEntry.mk "INVOICE_001.pdf" true] [DirEntry.mk "INVOICE_001.pdf" false]
    none 1 "HP1" rfl rfl rfl rfl
  exact ⟨rfl, h.1⟩
